import Mathlib

/-!
# Verification of the `botagent` bot-detection library

Shallow embedding of `src/lib.rs`, `src/pattern.rs` and `src/errors.rs`.

The library delegates regular-expression compilation and matching to the
external `pcre2` crate, file reading to `std::fs`, and JSON parsing to
`serde_json`.  Those collaborators are modelled as oracles (structures of
functions) over which the theorems quantify; concrete executable instances
are supplied for witnesses.  A compiled `pcre2::bytes::Regex` is modelled
as the pair of its `caseless` builder flag and its pattern source string,
which is exactly the data the library hands to the crate.

The process-wide `static REGEX: OnceCell<Regex>` cache is modelled by
explicit state passing: each cache-touching operation consumes the cache
state (`Option Regex`) and returns the new state together with its outcome.
A Rust panic (the `panic!` in `init_pattern`'s closure) is modelled by the
explicit outcome `Outcome.panic`; `once_cell`'s `get_or_init` leaves the
cell uninitialized when its closure panics, which the model mirrors.
-/

deriving instance DecidableEq for Except

namespace Botagent

/-- Model of a compiled `pcre2::bytes::Regex`: the `caseless` flag passed to
`RegexBuilder` (false for plain `Regex::new`) and the pattern source string. -/
structure Regex where
  caseless : Bool
  source : String
deriving DecidableEq, Repr

/-- `BotDetectorError` from `src/errors.rs`: `Io` (file read failure),
`JsonParse` (serde failure), `RegexCompile` (any `pcre2::Error`, which the
`From<Pcre2Error>` impl maps to this constructor — including match-time
errors, not only compile-time ones). -/
inductive BotDetectorError where
  | Io : BotDetectorError
  | JsonParse : BotDetectorError
  | RegexCompile : BotDetectorError
deriving DecidableEq, Repr

/-- Result of a fallible `pcre2` match-time operation
(`Regex::is_match` / `Regex::captures` return `Result<_, pcre2::Error>`). -/
inductive MatchRes (α : Type) where
  | ok : α → MatchRes α
  | err : MatchRes α
deriving DecidableEq, Repr

/-- Oracle for the `pcre2` engine.  `compiles` says whether a pattern
source (with its caseless flag) compiles; `isMatch` is `Regex::is_match`;
`captures` is `Regex::captures`, returning on a successful match the list
of capture groups with group 0 (the whole-match span) first, unset groups
as `none`. -/
structure Pcre2 where
  compiles : Regex → Bool
  isMatch : Regex → String → MatchRes Bool
  captures : Regex → String → MatchRes (Option (List (Option String)))

/-- Oracle environment for the external collaborators: `readToString`
models `fs::read_to_string` (`none` = I/O error), `parseList` models
`serde_json::from_str::<List>` deserialising a JSON array of strings
(`none` = parse error), and `pcre` is the regex engine. -/
structure Env where
  readToString : String → Option String
  parseList : String → Option (List String)
  pcre : Pcre2

/-- Outcome of a call that may return normally, return a library error, or
panic the calling thread. -/
inductive Outcome (α : Type) where
  | ok : α → Outcome α
  | err : BotDetectorError → Outcome α
  | panic : Outcome α
deriving DecidableEq, Repr

/-- `generate_pattern` from `src/pattern.rs`: read the JSON file, parse it
into a list of pattern strings, join them with `"|"`, and compile the
joined expression with `caseless(true)`.  Each failure is converted into
the corresponding `BotDetectorError` constructor by the `From` impls. -/
def generate_pattern (env : Env) (json_path : String) :
    Except BotDetectorError Regex :=
  match env.readToString json_path with
  | none => Except.error BotDetectorError.Io
  | some content =>
    match env.parseList content with
    | none => Except.error BotDetectorError.JsonParse
    | some patterns =>
      let pattern_str := String.intercalate "|" patterns
      if env.pcre.compiles ⟨true, pattern_str⟩ then
        Except.ok ⟨true, pattern_str⟩
      else
        Except.error BotDetectorError.RegexCompile

/-- `init_pattern` from `src/lib.rs`: `REGEX.get_or_init(|| ...)` returns
the stored regex when the cell is already initialized (without consulting
`generate_pattern` at all); on the first call it runs `generate_pattern`
and either stores and returns the compiled regex, or panics — the `Err`
arm of the closure calls `panic!`, so `init_pattern` never surfaces the
compile failure as a `BotDetectorError`, and a panicking closure leaves
the `OnceCell` uninitialized. -/
def init_pattern (env : Env) (cache : Option Regex) (json_path : String) :
    Option Regex × Outcome Regex :=
  match cache with
  | some r => (some r, Outcome.ok r)
  | none =>
    match generate_pattern env json_path with
    | Except.ok r => (some r, Outcome.ok r)
    | Except.error _ => (none, Outcome.panic)

/-- `is_bot` from `src/lib.rs`: initialize (or fetch) the cached combined
regex, then `regex.is_match(user_agent).unwrap_or(false)` — a match-time
error is swallowed into `false`.  The `?` on `init_pattern` is modelled by
the error branch even though `init_pattern` never returns an error. -/
def is_bot (env : Env) (cache : Option Regex) (user_agent json_path : String) :
    Option Regex × Outcome Bool :=
  match init_pattern env cache json_path with
  | (cache', Outcome.ok regex) =>
    (cache',
      Outcome.ok (match env.pcre.isMatch regex user_agent with
        | MatchRes.ok b => b
        | MatchRes.err => false))
  | (cache', Outcome.err e) => (cache', Outcome.err e)
  | (cache', Outcome.panic) => (cache', Outcome.panic)

/-- `is_bot_match` from `src/lib.rs`: on the cached combined regex, run
`captures`; only the `Ok(Some(caps))` case with `caps.get(0)` present
returns the group-0 (whole match) text; every other case — no match, a
match-time error, or an absent group 0 — falls through to `Ok(None)`. -/
def is_bot_match (env : Env) (cache : Option Regex) (user_agent json_path : String) :
    Option Regex × Outcome (Option String) :=
  match init_pattern env cache json_path with
  | (cache', Outcome.ok regex) =>
    (cache',
      Outcome.ok (match env.pcre.captures regex user_agent with
        | MatchRes.ok (some caps) =>
          match caps.head? with
          | some (some matched) => some matched
          | _ => none
        | _ => none))
  | (cache', Outcome.err e) => (cache', Outcome.err e)
  | (cache', Outcome.panic) => (cache', Outcome.panic)

/-- `is_bot_matches` from `src/lib.rs`: read and parse the pattern file on
every call (no cache involved), then `filter_map` over the patterns:
compile `format!("(?i)\x7bpattern\x7d")` with plain `Regex::new`
(case-insensitivity comes from the inline `(?i)` prefix), skip the pattern
(`.ok()?`) when compilation fails, keep it when
`is_match(...).unwrap_or(false)` is true. -/
def is_bot_matches (env : Env) (user_agent json_path : String) :
    Except BotDetectorError (List String) :=
  match env.readToString json_path with
  | none => Except.error BotDetectorError.Io
  | some content =>
    match env.parseList content with
    | none => Except.error BotDetectorError.JsonParse
    | some patterns =>
      Except.ok (patterns.filterMap fun pattern =>
        if env.pcre.compiles ⟨false, "(?i)" ++ pattern⟩ then
          match env.pcre.isMatch ⟨false, "(?i)" ++ pattern⟩ user_agent with
          | MatchRes.ok true => some pattern
          | _ => none
        else none)

/-- The per-pattern loop of `is_bot_pattern`: for each pattern in order,
`Regex::new(&pattern)?` (case-as-authored, compile error propagated) then
`regex.is_match(user_agent)?` (match-time error propagated); the first
pattern whose matcher matches is returned unmodified.  Both propagated
`pcre2::Error`s become `BotDetectorError::RegexCompile` via the `From`
impl. -/
def firstMatchLoop (env : Env) (user_agent : String) :
    List String → Except BotDetectorError (Option String)
  | [] => Except.ok none
  | pattern :: rest =>
    if env.pcre.compiles ⟨false, pattern⟩ then
      match env.pcre.isMatch ⟨false, pattern⟩ user_agent with
      | MatchRes.ok true => Except.ok (some pattern)
      | MatchRes.ok false => firstMatchLoop env user_agent rest
      | MatchRes.err => Except.error BotDetectorError.RegexCompile
    else Except.error BotDetectorError.RegexCompile

/-- `is_bot_pattern` from `src/lib.rs`: read and parse the pattern file,
then run the fail-fast first-match loop. -/
def is_bot_pattern (env : Env) (user_agent json_path : String) :
    Except BotDetectorError (Option String) :=
  match env.readToString json_path with
  | none => Except.error BotDetectorError.Io
  | some content =>
    match env.parseList content with
    | none => Except.error BotDetectorError.JsonParse
    | some patterns => firstMatchLoop env user_agent patterns

/-- `create_is_bot` from `src/lib.rs`: given one precompiled regex,
return the closure
`|ua| !ua.is_empty() && regex.is_match(ua).unwrap_or(false)`. -/
def create_is_bot (env : Env) (custom_pattern : Regex) : String → Bool :=
  fun user_agent =>
    !user_agent.isEmpty &&
      (match env.pcre.isMatch custom_pattern user_agent with
       | MatchRes.ok b => b
       | MatchRes.err => false)

/-! ## Concrete oracle instances used by witnesses

`litEngine` is an executable `pcre2` stand-in that is faithful to PCRE2 on
the fragment the witnesses exercise: literal (metacharacter-free) patterns
match as substrings, an inline `(?i)` prefix or the caseless flag folds
case, the empty pattern compiles and matches every subject (as in PCRE2),
and a pattern with unbalanced parentheses fails to compile. -/

/-- Case folding used by the literal witness engine. -/
def foldChar (ci : Bool) (c : Char) : Char :=
  if ci then c.toLower else c

/-- Does `needle` match at the head of `hay` (under case folding)? -/
def litHeadMatch (ci : Bool) : List Char → List Char → Bool
  | [], _ => true
  | _ :: _, [] => false
  | a :: as, b :: bs =>
    (foldChar ci a = foldChar ci b) && litHeadMatch ci as bs

/-- First literal match of `needle` inside `hay`: returns the matched span
of `hay`. The empty needle matches everywhere with an empty span, as the
empty pattern does in PCRE2. -/
def litFind (ci : Bool) (needle : List Char) : List Char → Option (List Char)
  | [] => if litHeadMatch ci needle [] then some [] else none
  | c :: t =>
    if litHeadMatch ci needle (c :: t) then some ((c :: t).take needle.length)
    else litFind ci needle t

/-- Balanced-parentheses check standing in for PCRE2 syntax validity in the
witness engine (the spec's example of invalidity is unbalanced groups). -/
def parensBalanced : List Char → Nat → Bool
  | [], d => d == 0
  | c :: t, d =>
    if c = '(' then parensBalanced t (d + 1)
    else if c = ')' then (if d == 0 then false else parensBalanced t (d - 1))
    else parensBalanced t d

/-- Strip an inline `(?i)` prefix, turning it into the caseless flag, as
PCRE2 treats `(?i)` at the start of a pattern. -/
def litEffective (r : Regex) : Bool × List Char :=
  let cs := r.source.data
  if cs.take 4 = "(?i)".data then (true, cs.drop 4) else (r.caseless, cs)

/-- Executable literal witness engine. -/
def litEngine : Pcre2 where
  compiles := fun r => parensBalanced r.source.data 0
  isMatch := fun r s =>
    let e := litEffective r
    MatchRes.ok (litFind e.1 e.2 s.data).isSome
  captures := fun r s =>
    let e := litEffective r
    MatchRes.ok ((litFind e.1 e.2 s.data).map fun span => [some (String.mk span)])

/-- Engine on which every match-time operation fails, to exercise the
`unwrap_or(false)` / `?` error paths. -/
def errEngine : Pcre2 where
  compiles := fun _ => true
  isMatch := fun _ _ => MatchRes.err
  captures := fun _ _ => MatchRes.err

/-- Pattern files available to the witness environment, mapping a path to
the pattern list its JSON content denotes. -/
def filesEx (path : String) : Option (List String) :=
  if path = "patterns.json" then some ["Googlebot"]
  else if path = "four.json" then some ["Google", "Googlebot", "bot", "http"]
  else if path = "empty.json" then some []
  else if path = "bad.json" then some ["("]
  else none

/-- Witness environment over the literal engine: a file's content is
represented by its path and `parseList` resolves it via `filesEx`. -/
def envEx : Env where
  readToString := fun path => if (filesEx path).isSome then some path else none
  parseList := filesEx
  pcre := litEngine

/-- Witness environment whose engine errors on every match attempt. -/
def envErr : Env where
  readToString := fun path => if (filesEx path).isSome then some path else none
  parseList := filesEx
  pcre := errEngine

/-- The bot user agent used throughout the repository's tests. -/
def uaEx : String :=
  "Mozilla/5.0 (compatible; Googlebot/2.1; +http://www.google.com/bot.html)"

/-! ## Theorems -/

/-- Claim C1: the matcher cache initializes at most once per process — the
first call to `init_pattern` (on an empty cache) compiles via
`generate_pattern` and stores the combined matcher; every subsequent call,
for every pattern-source argument and even under a different environment
(so in particular without recompiling anything), returns that same stored
matcher unchanged. -/
theorem init_pattern_once (env : Env) (json_path : String) (r : Regex)
    (h : generate_pattern env json_path = Except.ok r) :
    init_pattern env none json_path = (some r, Outcome.ok r) ∧
    ∀ (env' : Env) (json_path' : String),
      init_pattern env' (some r) json_path' = (some r, Outcome.ok r) := by
  exact ⟨by simp [init_pattern, h], fun env' json_path' => rfl⟩

/-- Witness for C1: first call on `patterns.json` compiles and stores the
caseless `Googlebot` matcher; a second call pointed at `bad.json` (whose
sole pattern does not even compile) still returns the stored matcher. -/
theorem init_pattern_once_witness :
    init_pattern envEx none "patterns.json" =
      (some ⟨true, "Googlebot"⟩, Outcome.ok ⟨true, "Googlebot"⟩) ∧
    init_pattern envEx (some ⟨true, "Googlebot"⟩) "bad.json" =
      (some ⟨true, "Googlebot"⟩, Outcome.ok ⟨true, "Googlebot"⟩) := by
  have h := init_pattern_once envEx "patterns.json" ⟨true, "Googlebot"⟩ (by decide)
  exact ⟨h.1, h.2 envEx "bad.json"⟩

/-- Claim C2: if `generate_pattern` fails during the very first cache
initialization, `init_pattern` does not return a `BotDetectorError`: the
calling thread panics and the process-wide cache is left uninitialized. -/
theorem init_pattern_panics_on_failure (env : Env) (json_path : String)
    (e : BotDetectorError)
    (h : generate_pattern env json_path = Except.error e) :
    init_pattern env none json_path = (none, Outcome.panic) := by
  simp [init_pattern, h]

/-- Witness for C2: `bad.json` holds a single unbalanced pattern, its
compilation fails, and the first initialization panics leaving the cache
empty. -/
theorem init_pattern_panics_on_failure_witness :
    generate_pattern envEx "bad.json" =
      Except.error BotDetectorError.RegexCompile ∧
    init_pattern envEx none "bad.json" = (none, Outcome.panic) :=
  ⟨by decide,
   init_pattern_panics_on_failure envEx "bad.json"
     BotDetectorError.RegexCompile (by decide)⟩

/-- Claim C3: once the pattern file is read and parsed into a pattern
list, `generate_pattern` produces exactly the matcher compiled caselessly
from the patterns joined by the alternation character, and returns
`BotDetectorError.RegexCompile` exactly when that joined expression fails
to compile. -/
theorem generate_pattern_joins_caseless (env : Env)
    (json_path content : String) (patterns : List String)
    (hr : env.readToString json_path = some content)
    (hp : env.parseList content = some patterns) :
    (generate_pattern env json_path =
        Except.ok ⟨true, String.intercalate "|" patterns⟩ ↔
      env.pcre.compiles ⟨true, String.intercalate "|" patterns⟩ = true) ∧
    (generate_pattern env json_path =
        Except.error BotDetectorError.RegexCompile ↔
      env.pcre.compiles ⟨true, String.intercalate "|" patterns⟩ = false) := by
  simp only [generate_pattern, hr, hp]
  cases hc : env.pcre.compiles ⟨true, String.intercalate "|" patterns⟩ <;>
    simp [hc]

/-- Witness for C3: the four patterns of `four.json` are joined with the
alternation bar, the joined expression compiles, and `generate_pattern`
returns exactly the caseless matcher for the joined expression. -/
theorem generate_pattern_joins_caseless_witness :
    generate_pattern envEx "four.json" =
      Except.ok ⟨true, "Google|Googlebot|bot|http"⟩ :=
  ((generate_pattern_joins_caseless envEx "four.json" "four.json"
      ["Google", "Googlebot", "bot", "http"] (by decide) (by decide)).1).mpr
    (by decide)

/-- Counterexample for C4: on the empty pattern set (`empty.json`)
`generate_pattern` does NOT reject the input — it succeeds, returning the
matcher built from the empty joined expression, and that degenerate
matcher matches arbitrary input (a non-bot user agent, and even the empty
string).  The modelled engine mirrors PCRE2 here: PCRE2 accepts the empty
pattern and it matches every subject. -/
theorem generate_pattern_empty_accepted :
    generate_pattern envEx "empty.json" = Except.ok ⟨true, ""⟩ ∧
    envEx.pcre.isMatch ⟨true, ""⟩ "Mozilla/5.0 (Macintosh)" =
      MatchRes.ok true ∧
    envEx.pcre.isMatch ⟨true, ""⟩ "" = MatchRes.ok true := by
  decide

/-- Claim C4 (amended): when the pattern list is empty, `generate_pattern`
joins it into the empty expression and hands that to the engine with no
explicit emptiness check: whenever the engine accepts the empty pattern
(as PCRE2 does), compilation silently succeeds with the degenerate
matcher; no explicit rejection of the empty pattern set takes place. -/
theorem generate_pattern_empty_degenerate (env : Env)
    (json_path content : String)
    (hr : env.readToString json_path = some content)
    (hp : env.parseList content = some [])
    (hc : env.pcre.compiles ⟨true, ""⟩ = true) :
    generate_pattern env json_path = Except.ok ⟨true, ""⟩ := by
  have hjoin : String.intercalate "|" ([] : List String) = "" := rfl
  simp only [generate_pattern, hr, hp, hjoin, hc, if_true]

/-- Witness for C4 (amended): the empty pattern file compiles to the
degenerate empty matcher. -/
theorem generate_pattern_empty_degenerate_witness :
    generate_pattern envEx "empty.json" = Except.ok ⟨true, ""⟩ :=
  generate_pattern_empty_degenerate envEx "empty.json" "empty.json"
    (by decide) (by decide) (by decide)

/-- Claim C5: with the combined matcher cached, `is_bot` returns true
exactly when the cached matcher matches the user agent; a non-match
yields false, and on the empty user agent every non-degenerate matcher
(one that does not match the empty string) yields false. -/
theorem is_bot_iff_matcher (env : Env) (r : Regex)
    (user_agent json_path : String) :
    ((is_bot env (some r) user_agent json_path).2 = Outcome.ok true ↔
      env.pcre.isMatch r user_agent = MatchRes.ok true) ∧
    (env.pcre.isMatch r user_agent = MatchRes.ok false →
      (is_bot env (some r) user_agent json_path).2 = Outcome.ok false) ∧
    (env.pcre.isMatch r "" = MatchRes.ok false →
      (is_bot env (some r) "" json_path).2 = Outcome.ok false) := by
  refine ⟨?_, fun h => by simp [is_bot, init_pattern, h],
    fun h => by simp [is_bot, init_pattern, h]⟩
  cases hm : env.pcre.isMatch r user_agent with
  | ok b => cases b <;> simp [is_bot, init_pattern, hm]
  | err => simp [is_bot, init_pattern, hm]

/-- Witness for C5: with the cached `Googlebot` matcher, the Googlebot
user agent yields true, a Macintosh user agent yields false, and the
empty user agent yields false. -/
theorem is_bot_iff_matcher_witness :
    (is_bot envEx (some ⟨true, "Googlebot"⟩) uaEx "patterns.json").2 =
      Outcome.ok true ∧
    (is_bot envEx (some ⟨true, "Googlebot"⟩) "Mozilla/5.0 (Macintosh)"
        "patterns.json").2 = Outcome.ok false ∧
    (is_bot envEx (some ⟨true, "Googlebot"⟩) "" "patterns.json").2 =
      Outcome.ok false :=
  ⟨((is_bot_iff_matcher envEx ⟨true, "Googlebot"⟩ uaEx
      "patterns.json").1).mpr (by decide),
   (is_bot_iff_matcher envEx ⟨true, "Googlebot"⟩ "Mozilla/5.0 (Macintosh)"
      "patterns.json").2.1 (by decide),
   (is_bot_iff_matcher envEx ⟨true, "Googlebot"⟩ "" "patterns.json").2.2
     (by decide)⟩

/-- The fail-fast first-match loop skips a leading block of patterns that
compile but do not match. -/
theorem firstMatchLoop_skip (env : Env) (user_agent p : String)
    (rest : List String) :
    ∀ pre : List String,
      (∀ q ∈ pre, env.pcre.compiles ⟨false, q⟩ = true ∧
        env.pcre.isMatch ⟨false, q⟩ user_agent = MatchRes.ok false) →
      firstMatchLoop env user_agent (pre ++ p :: rest) =
        firstMatchLoop env user_agent (p :: rest) := by
  intro pre
  induction pre with
  | nil => intro _; rfl
  | cons q pre ih =>
    intro h
    have hq := h q (List.mem_cons_self q pre)
    have hrec := ih fun x hx => h x (List.mem_cons_of_mem q hx)
    simp only [List.cons_append, firstMatchLoop, hq.1, hq.2, if_true]
    exact hrec

/-- Claim C6: `is_bot_pattern` walks the pattern list in original order,
compiling each pattern case-as-authored (no caseless flag): past a block
of compiling, non-matching patterns, the first pattern whose matcher
matches is returned unmodified, and a pattern that fails to compile
before any match is found surfaces as an error rather than being
skipped. -/
theorem is_bot_pattern_first_match (env : Env)
    (user_agent json_path content : String)
    (pre : List String) (p : String) (rest : List String)
    (hr : env.readToString json_path = some content)
    (hp : env.parseList content = some (pre ++ p :: rest))
    (hpre : ∀ q ∈ pre, env.pcre.compiles ⟨false, q⟩ = true ∧
      env.pcre.isMatch ⟨false, q⟩ user_agent = MatchRes.ok false) :
    (env.pcre.compiles ⟨false, p⟩ = true →
      env.pcre.isMatch ⟨false, p⟩ user_agent = MatchRes.ok true →
      is_bot_pattern env user_agent json_path = Except.ok (some p)) ∧
    (env.pcre.compiles ⟨false, p⟩ = false →
      is_bot_pattern env user_agent json_path =
        Except.error BotDetectorError.RegexCompile) := by
  have hloop := firstMatchLoop_skip env user_agent p rest pre hpre
  constructor
  · intro hc hm
    simp only [is_bot_pattern, hr, hp, hloop, firstMatchLoop, hc, hm,
      if_true]
  · intro hc
    simp only [is_bot_pattern, hr, hp, hloop, firstMatchLoop, hc]
    simp

/-- Witness for C6: against a user agent containing all four of
`Google`, `Googlebot`, `bot` and `http`, the list
`["Google", "Googlebot", "bot", "http"]` yields the lowest-index match
`"Google"`; and on `bad.json`, whose first pattern does not compile, the
error is surfaced. -/
theorem is_bot_pattern_first_match_witness :
    is_bot_pattern envEx uaEx "four.json" = Except.ok (some "Google") ∧
    is_bot_pattern envEx uaEx "bad.json" =
      Except.error BotDetectorError.RegexCompile :=
  ⟨(is_bot_pattern_first_match envEx uaEx "four.json" "four.json" []
      "Google" ["Googlebot", "bot", "http"] (by decide) (by decide)
      (fun q hq => absurd hq (List.not_mem_nil q))).1 (by decide) (by decide),
   (is_bot_pattern_first_match envEx uaEx "bad.json" "bad.json" [] "(" []
      (by decide) (by decide)
      (fun q hq => absurd hq (List.not_mem_nil q))).2 (by decide)⟩

/-- Claim C7: `is_bot_matches` re-reads, re-parses and recompiles every
pattern on each call (the cache plays no part in its definition), applies
case-insensitivity per pattern by prefixing the inline caseless group,
and returns exactly the sublist — in original order — of pattern strings
whose individual matcher both compiles and matches the user agent; a
pattern that fails to compile is excluded from the result and produces no
error (the call still returns a successful result). -/
theorem is_bot_matches_subset (env : Env)
    (user_agent json_path content : String) (patterns : List String)
    (hr : env.readToString json_path = some content)
    (hp : env.parseList content = some patterns) :
    is_bot_matches env user_agent json_path =
      Except.ok (patterns.filter fun p =>
        env.pcre.compiles ⟨false, "(?i)" ++ p⟩ &&
          decide (env.pcre.isMatch ⟨false, "(?i)" ++ p⟩ user_agent =
            MatchRes.ok true)) := by
  simp only [is_bot_matches, hr, hp, Except.ok.injEq]
  clear hp
  induction patterns with
  | nil => rfl
  | cons p ps ih =>
    simp only [List.filterMap_cons, List.filter_cons]
    cases hc : env.pcre.compiles ⟨false, "(?i)" ++ p⟩ with
    | false => simpa [hc] using ih
    | true =>
      cases hm : env.pcre.isMatch ⟨false, "(?i)" ++ p⟩ user_agent with
      | ok b => cases b <;> simpa [hc, hm] using ih
      | err => simpa [hc, hm] using ih

/-- Witness for C7: with `four.json`, all four patterns compile (with the
inline caseless prefix) and match the Googlebot user agent, so exactly
the original list comes back in order; with `bad.json`, whose only
pattern is invalid, the result is a successful empty list — the invalid
pattern is skipped, not reported. -/
theorem is_bot_matches_subset_witness :
    is_bot_matches envEx uaEx "four.json" =
      Except.ok ["Google", "Googlebot", "bot", "http"] ∧
    is_bot_matches envEx uaEx "bad.json" = Except.ok [] := by
  constructor
  · have h := is_bot_matches_subset envEx uaEx "four.json" "four.json"
      ["Google", "Googlebot", "bot", "http"] (by decide) (by decide)
    rw [h]; decide
  · have h := is_bot_matches_subset envEx uaEx "bad.json" "bad.json" ["("]
      (by decide) (by decide)
    rw [h]; decide

/-- Claim C8: on the cached combined matcher, `is_bot_match` returns the
text of the whole-match span — capture group 0, the head of the capture
list — whenever a match exists, independently of whatever numbered
sub-captures follow it, and returns none when there is no match. -/
theorem is_bot_match_group0 (env : Env) (r : Regex)
    (user_agent json_path : String) :
    (∀ (whole : String) (subs : List (Option String)),
      env.pcre.captures r user_agent =
          MatchRes.ok (some (some whole :: subs)) →
      (is_bot_match env (some r) user_agent json_path).2 =
        Outcome.ok (some whole)) ∧
    (env.pcre.captures r user_agent = MatchRes.ok none →
      (is_bot_match env (some r) user_agent json_path).2 =
        Outcome.ok none) := by
  constructor
  · intro whole subs h
    simp [is_bot_match, init_pattern, h]
  · intro h
    simp [is_bot_match, init_pattern, h]

/-- Witness for C8: the cached caseless `Googlebot` matcher captures the
whole-match span `"Googlebot"` out of the Googlebot user agent, and
yields none on a Macintosh user agent. -/
theorem is_bot_match_group0_witness :
    (is_bot_match envEx (some ⟨true, "Googlebot"⟩) uaEx
        "patterns.json").2 = Outcome.ok (some "Googlebot") ∧
    (is_bot_match envEx (some ⟨true, "Googlebot"⟩)
        "Mozilla/5.0 (Macintosh)" "patterns.json").2 = Outcome.ok none :=
  ⟨(is_bot_match_group0 envEx ⟨true, "Googlebot"⟩ uaEx "patterns.json").1
      "Googlebot" [] (by decide),
   (is_bot_match_group0 envEx ⟨true, "Googlebot"⟩ "Mozilla/5.0 (Macintosh)"
      "patterns.json").2 (by decide)⟩

/-- Claim C9: the predicate produced by `create_is_bot` from a precompiled
matcher returns true exactly when the user agent is non-empty and the
matcher matches it; in particular the predicate built from pattern `bot`
accepts the Googlebot user agent (which contains `Googlebot/2.1`) and
rejects the empty string. -/
theorem create_is_bot_spec (env : Env) (r : Regex) (user_agent : String) :
    (create_is_bot env r user_agent = true ↔
      user_agent ≠ "" ∧ env.pcre.isMatch r user_agent = MatchRes.ok true) ∧
    create_is_bot envEx ⟨false, "bot"⟩ uaEx = true ∧
    create_is_bot envEx ⟨false, "bot"⟩ "" = false := by
  refine ⟨?_, by decide, by decide⟩
  unfold create_is_bot
  cases hm : env.pcre.isMatch r user_agent with
  | ok b =>
    cases b <;>
      simp [hm, Bool.and_eq_true, ← Bool.not_eq_true, not_congr
        (String.isEmpty_iff user_agent)]
  | err => simp [hm]

/-- Claim C10: once the combined matcher is cached, the combined-query
path swallows match-time engine errors — `is_bot` answers false and
`is_bot_match` answers none, both successfully — whereas the per-pattern
path `is_bot_pattern` propagates a match-time error on a (compiling)
pattern as `BotDetectorError.RegexCompile`. -/
theorem combined_path_swallows_match_errors (env : Env) (r : Regex)
    (user_agent json_path content p : String) :
    (env.pcre.isMatch r user_agent = MatchRes.err →
      (is_bot env (some r) user_agent json_path).2 = Outcome.ok false) ∧
    (env.pcre.captures r user_agent = MatchRes.err →
      (is_bot_match env (some r) user_agent json_path).2 =
        Outcome.ok none) ∧
    (env.readToString json_path = some content →
      env.parseList content = some [p] →
      env.pcre.compiles ⟨false, p⟩ = true →
      env.pcre.isMatch ⟨false, p⟩ user_agent = MatchRes.err →
      is_bot_pattern env user_agent json_path =
        Except.error BotDetectorError.RegexCompile) := by
  refine ⟨fun h => by simp [is_bot, init_pattern, h],
    fun h => by simp [is_bot_match, init_pattern, h],
    fun hr hp hc hm => ?_⟩
  simp only [is_bot_pattern, hr, hp, firstMatchLoop, hc, hm, if_true]

/-- Witness for C10: under the always-erroring engine, the cached-path
queries answer false and none successfully, while the per-pattern query
on the same single-pattern source propagates the error. -/
theorem combined_path_swallows_match_errors_witness :
    (is_bot envErr (some ⟨true, "Googlebot"⟩) uaEx "patterns.json").2 =
      Outcome.ok false ∧
    (is_bot_match envErr (some ⟨true, "Googlebot"⟩) uaEx
        "patterns.json").2 = Outcome.ok none ∧
    is_bot_pattern envErr uaEx "patterns.json" =
      Except.error BotDetectorError.RegexCompile :=
  ⟨(combined_path_swallows_match_errors envErr ⟨true, "Googlebot"⟩ uaEx
      "patterns.json" "patterns.json" "Googlebot").1 (by decide),
   (combined_path_swallows_match_errors envErr ⟨true, "Googlebot"⟩ uaEx
      "patterns.json" "patterns.json" "Googlebot").2.1 (by decide),
   (combined_path_swallows_match_errors envErr ⟨true, "Googlebot"⟩ uaEx
      "patterns.json" "patterns.json" "Googlebot").2.2 (by decide)
     (by decide) (by decide) (by decide)⟩

end Botagent
